import Mathlib

/-!
Shallow embedding of the IoT Temperature Monitoring System pipeline
(Worker / rule evaluation in `worker/worker.js`, Executor / dispatch in
Component C, shared constants in `shared/config.js`).

Temperatures and thresholds are modelled as rationals (`ℚ`); alert types
and action types are the literal strings of `config.alertTypes` /
`config.actionTypes`.  Timestamps are clock reads with no bearing on any
verified property and are omitted from the records.
-/

namespace TMS

/-- Thresholds record `{warning, critical, target}` (`config.thresholds`
shape; per-ship values come from Redis, defaults from `config.js`). -/
structure Thresholds where
  warning : ℚ
  critical : ℚ
  target : ℚ
deriving DecidableEq, Repr

/-- Default thresholds from `config.thresholds.default` in `shared/config.js`:
warning -10, critical -5, target -18. -/
def defaultThresholds : Thresholds := { warning := -10, critical := -5, target := -18 }

/-- A telemetry reading as it travels through the queues.  `sensor_id` is
absent (`none`) on the synthetic telemetry object of a trend event, which in
the JavaScript source simply lacks that field.  The `timestamp` field is
omitted (clock read). -/
structure Telemetry where
  ship_id : String
  sensor_id : Option String
  temp : ℚ
deriving DecidableEq, Repr

/-- The `evaluation` sub-object of an event.  `thresholds` is `none` on
trend events, whose evaluation object has no `thresholds` field in the
source.  `message` is `none` on ordinary telemetry events. -/
structure Evaluation where
  alert_type : String
  thresholds : Option Thresholds
  actions : List String
  message : Option String
deriving DecidableEq, Repr

/-- An event published on the EventsQueue (`processed_at` timestamp
omitted). -/
structure Event where
  event_type : String
  telemetry : Telemetry
  evaluation : Evaluation
deriving DecidableEq, Repr

/-! ### Worker (Component B, `worker/worker.js`) -/

/-- `getThresholds(shipId)` from `worker/worker.js`: reads the three keys
`threshold:{shipId}:{warning|critical|target}` from Redis and falls back to
the `config.js` default for each missing component independently
(`parseFloat(x || default)`).  The Redis store is modelled as a partial map
from key strings to (already parsed) numeric values. -/
def getThresholds (redisGet : String → Option ℚ) (shipId : String) : Thresholds :=
  let warning := redisGet ("threshold:" ++ shipId ++ ":warning")
  let critical := redisGet ("threshold:" ++ shipId ++ ":critical")
  let target := redisGet ("threshold:" ++ shipId ++ ":target")
  { warning := warning.getD defaultThresholds.warning
    critical := critical.getD defaultThresholds.critical
    target := target.getD defaultThresholds.target }

/-- `determineAlertType(temp, thresholds)` from `worker/worker.js`:
CRITICAL when temp > critical, else WARNING when temp > warning, else
NORMAL. -/
def determineAlertType (temp : ℚ) (thresholds : Thresholds) : String :=
  if temp > thresholds.critical then "CRITICAL"
  else if temp > thresholds.warning then "WARNING"
  else "NORMAL"

/-- `determineActions(alertType)` from `worker/worker.js`: CRITICAL ↦
[LOG, ADJUST_TEMPERATURE, NOTIFY_CRITICAL], WARNING ↦ [LOG, NOTIFY_WARNING],
anything else ↦ [LOG]. -/
def determineActions (alertType : String) : List String :=
  if alertType = "CRITICAL" then
    ["LOG", "ADJUST_TEMPERATURE", "NOTIFY_CRITICAL"]
  else if alertType = "WARNING" then
    ["LOG", "NOTIFY_WARNING"]
  else
    ["LOG"]

/-- Trend-analysis constants from `config.worker` in `shared/config.js`. -/
def trendMinReadings : Nat := 3

/-- Minimum number of rising adjacent steps (`config.worker.trendMinRising`). -/
def trendMinRising : Nat := 2

/-- Minimum total increase to trigger a trend alert
(`config.worker.trendMinIncrease`). -/
def trendMinIncrease : ℚ := 2

/-- The `rising` counter loop of `checkTemperatureTrend`: counts adjacent
pairs (newer, older) in the newest-first list where newer > older. -/
def risingSteps : List ℚ → Nat
  | newer :: older :: rest => (if newer > older then 1 else 0) + risingSteps (older :: rest)
  | _ => 0

/-- `checkTemperatureTrend(shipId)` from `worker/worker.js`, with the
PostgreSQL query result (newest-first temperatures of the recent window)
supplied as the list `temps`.  Returns the TREND_ANOMALY event published to
the EventsQueue, or `none` when no trend is detected.  The human-readable
message renders the increase with `toString` where JavaScript uses
`toFixed(1)`; no verified property depends on the message text. -/
def checkTemperatureTrend (shipId : String) (temps : List ℚ) : Option Event :=
  if temps.length < trendMinReadings then none
  else
    let rising := risingSteps temps
    if rising ≥ trendMinRising then
      let increase := temps.headD 0 - temps.getLastD 0
      if increase > trendMinIncrease then
        some
          { event_type := "TREND_ANOMALY"
            telemetry := { ship_id := shipId, sensor_id := none, temp := temps.headD 0 }
            evaluation :=
              { alert_type := "TREND_ANOMALY"
                thresholds := none
                actions := ["TREND_ALERT"]
                message := some ("Temperature rising: +" ++ toString increase ++ " in 5 min") } }
      else none
    else none

/-- The TELEMETRY_PROCESSED event built in `processTelemetry` of
`worker/worker.js` from a reading and its resolved thresholds. -/
def buildTelemetryEvent (t : Telemetry) (thresholds : Thresholds) : Event :=
  let alertType := determineAlertType t.temp thresholds
  { event_type := "TELEMETRY_PROCESSED"
    telemetry := t
    evaluation :=
      { alert_type := alertType
        thresholds := some thresholds
        actions := determineActions alertType
        message := none } }

/-- `processTelemetry(telemetry)` from `worker/worker.js`: resolve
thresholds, publish the ordinary event, then run the trend check (whose
query result for this ship is given by `history`).  The returned list is
the sequence of events published to the EventsQueue. -/
def processTelemetry (redisGet : String → Option ℚ) (history : String → List ℚ)
    (t : Telemetry) : List Event :=
  let thresholds := getThresholds redisGet t.ship_id
  let e := buildTelemetryEvent t thresholds
  match checkTemperatureTrend t.ship_id (history t.ship_id) with
  | some trendEvent => [e, trendEvent]
  | none => [e]

/-! ### Executor (Component C) -/

/-- A row of the `telemetry_readings` table (`created_at`/`timestamp`
clock columns omitted). -/
structure TelemetryRow where
  ship_id : String
  sensor_id : Option String
  temperature : ℚ
deriving DecidableEq, Repr

/-- A row of the `alerts` table (`created_at` omitted). -/
structure AlertRow where
  ship_id : String
  temperature : ℚ
  threshold : ℚ
  alert_type : String
  action_taken : String
  message : String
deriving DecidableEq, Repr

/-- A row of the `temperature_actions` table (`created_at` omitted). -/
structure ActionRow where
  ship_id : String
  action_type : String
  current_temp : ℚ
  target_temp : ℚ
  status : String
deriving DecidableEq, Repr

/-- The externally visible state the Executor mutates: the three PostgreSQL
tables (append-only) and counters of outbound webhook deliveries attempted
and of delivery attempts that raised (and were caught and logged). -/
structure ExecState where
  telemetryRows : List TelemetryRow
  alertRows : List AlertRow
  actionRows : List ActionRow
  notifyAttempts : Nat
  notifyFailures : Nat
deriving DecidableEq, Repr

/-- The empty database state. -/
def emptyExecState : ExecState :=
  { telemetryRows := [], alertRows := [], actionRows := [], notifyAttempts := 0, notifyFailures := 0 }

/-- Environment facts the Executor's notification path depends on:
`config.notifications.webhook.enabled`, presence of
`config.notifications.webhook.url`, and whether the outbound `fetch` raises. -/
structure ExecWorld where
  webhookEnabled : Bool
  webhookUrlPresent : Bool
  fetchFails : Bool
deriving DecidableEq, Repr

/-- `storeTelemetry(telemetry)`: INSERT into `telemetry_readings`. -/
def storeTelemetry (t : Telemetry) (s : ExecState) : ExecState :=
  { s with telemetryRows := s.telemetryRows ++
      [{ ship_id := t.ship_id, sensor_id := t.sensor_id, temperature := t.temp }] }

/-- `storeAlert(telemetry, evaluation, action)`: computes the threshold
column (critical threshold for CRITICAL, warning threshold for WARNING,
otherwise 0), the message (the evaluation's own message if present, else
the formatted fallback), and INSERTs into `alerts`.  On CRITICAL/WARNING
events of the pipeline `evaluation.thresholds` is always present; reading
it through `Option.map`/`getD 0` only matters for events that never occur
(JavaScript would throw on them). -/
def storeAlert (t : Telemetry) (ev : Evaluation) (action : String) (s : ExecState) : ExecState :=
  let threshold : ℚ :=
    if ev.alert_type = "CRITICAL" then (ev.thresholds.map Thresholds.critical).getD 0
    else if ev.alert_type = "WARNING" then (ev.thresholds.map Thresholds.warning).getD 0
    else 0
  let message := ev.message.getD
    (ev.alert_type ++ " | " ++ t.ship_id ++ "_" ++ t.sensor_id.getD "undefined" ++ " | "
      ++ toString t.temp ++ " > " ++ toString threshold ++ " degrees threshold")
  { s with alertRows := s.alertRows ++
      [{ ship_id := t.ship_id, temperature := t.temp, threshold := threshold,
         alert_type := ev.alert_type, action_taken := action, message := message }] }

/-- `storeTemperatureAction(telemetry, targetTemp)`: INSERT into
`temperature_actions` with action_type ADJUST_TEMPERATURE and status
PENDING. -/
def storeTemperatureAction (t : Telemetry) (targetTemp : ℚ) (s : ExecState) : ExecState :=
  { s with actionRows := s.actionRows ++
      [{ ship_id := t.ship_id, action_type := "ADJUST_TEMPERATURE", current_temp := t.temp,
         target_temp := targetTemp, status := "PENDING" }] }

/-- The outbound `fetch` call inside `sendNotification`: it can raise. -/
def fetchWebhook (w : ExecWorld) : Except String Unit :=
  if w.fetchFails then Except.error "Webhook down" else Except.ok ()

/-- `sendNotification(telemetry, evaluation)`: returns immediately when the
webhook is disabled or has no URL; otherwise attempts the `fetch` inside a
try/catch, so a delivery failure is logged (counted in `notifyFailures`)
and swallowed.  The telemetry and evaluation arguments only feed the JSON
request body. -/
def sendNotification (_t : Telemetry) (_ev : Evaluation) (w : ExecWorld) (s : ExecState) :
    ExecState :=
  if !w.webhookEnabled || !w.webhookUrlPresent then s
  else
    match fetchWebhook w with
    | Except.ok _ => { s with notifyAttempts := s.notifyAttempts + 1 }
    | Except.error _ =>
        { s with notifyAttempts := s.notifyAttempts + 1, notifyFailures := s.notifyFailures + 1 }

/-- One iteration of the action loop inside `processEvent`: the five
independent `if` statements on the action string. -/
def applyAction (w : ExecWorld) (t : Telemetry) (ev : Evaluation) (s : ExecState)
    (action : String) : ExecState :=
  let s1 := if action = "LOG" then storeTelemetry t s else s
  let s2 := if action = "NOTIFY_WARNING" then
    sendNotification t ev w (storeAlert t ev action s1) else s1
  let s3 := if action = "NOTIFY_CRITICAL" then
    sendNotification t ev w (storeAlert t ev action s2) else s2
  let s4 := if action = "ADJUST_TEMPERATURE" then
    storeTemperatureAction t ((ev.thresholds.map Thresholds.target).getD 0)
      (storeAlert t ev action s3) else s3
  if action = "TREND_ALERT" then storeAlert t ev action s4 else s4

/-- `processEvent(event)` from Component C: executes the event's action
list in order against the stores. -/
def processEvent (w : ExecWorld) (e : Event) (s : ExecState) : ExecState :=
  e.evaluation.actions.foldl (applyAction w e.telemetry e.evaluation) s

/-! ### Shared queue-consumer loop -/

/-- A message received from SQS: an already-deserialized body (`none`
models a body `JSON.parse` rejects) and its receipt handle. -/
structure QMsg (β : Type) where
  body : β
  receiptHandle : Nat
deriving DecidableEq, Repr

/-- One batch iteration of the polling loop shared by `startWorker`
(worker/worker.js) and `startExecutor` (Component C): each message is
processed inside a per-item try/catch — `proc state body` returns the state
after the attempt and whether it completed without raising — and the
receipt handles of exactly the successful items are collected for the
single `DeleteMessageBatchCommand` call.  Returns the final state and the
acknowledged receipt handles. -/
def consumeBatch {σ β : Type} (proc : σ → β → σ × Bool) (init : σ) :
    List (QMsg β) → σ × List Nat
  | [] => (init, [])
  | m :: rest =>
      let r := proc init m.body
      let p := consumeBatch proc r.1 rest
      (p.1, if r.2 then m.receiptHandle :: p.2 else p.2)

/-- The Executor's per-item processing: `JSON.parse` then `processEvent`;
a malformed body raises (is caught by the loop), a parsed event is fully
processed. -/
def executorProc (w : ExecWorld) (s : ExecState) (body : Option Event) : ExecState × Bool :=
  match body with
  | none => (s, false)
  | some e => (processEvent w e s, true)

/-! ### Concrete instances used by the end-to-end scenarios -/

/-- The classification/threshold projection of an alert row. -/
def alertKind (r : AlertRow) : String × ℚ := (r.alert_type, r.threshold)

/-- The Reading of the end-to-end CRITICAL scenario: ship_1, value -1. -/
def criticalReading : Telemetry := { ship_id := "ship_1", sensor_id := some "sensor_1", temp := -1 }

/-- The event the Worker produces from `criticalReading` under thresholds
{warning: -10, critical: -5} (the defaults). -/
def criticalScenarioEvent : Event := buildTelemetryEvent criticalReading defaultThresholds

/-- Environment with the webhook enabled, a URL configured, and deliveries
succeeding. -/
def webhookUp : ExecWorld := { webhookEnabled := true, webhookUrlPresent := true, fetchFails := false }

/-- The Executor state after dispatching the CRITICAL scenario event
against an empty database. -/
def criticalScenarioFinal : ExecState := processEvent webhookUp criticalScenarioEvent emptyExecState

/-- Redis contents of the partial-fallback scenario: a critical threshold
stored for ship_1, nothing else. -/
def partialStore : String → Option ℚ :=
  fun key => if key = "threshold:ship_1:critical" then some (-2) else none

/-- Placeholder event used only as the `Option.getD` default when an event
is known to be present. -/
def dummyEvent : Event :=
  { event_type := ""
    telemetry := { ship_id := "", sensor_id := none, temp := 0 }
    evaluation := { alert_type := "", thresholds := none, actions := [], message := none } }

/-! ### Helper lemmas -/

/-- Notification delivery never touches the `telemetry_readings` table. -/
theorem sendNotification_keeps_telemetryRows (t : Telemetry) (ev : Evaluation)
    (w : ExecWorld) (s : ExecState) :
    (sendNotification t ev w s).telemetryRows = s.telemetryRows := by
  rcases w with ⟨we, wu, wf⟩
  cases we <;> cases wu <;> cases wf <;> simp [sendNotification, fetchWebhook]

/-- Notification delivery never touches the `alerts` table. -/
theorem sendNotification_keeps_alertRows (t : Telemetry) (ev : Evaluation)
    (w : ExecWorld) (s : ExecState) :
    (sendNotification t ev w s).alertRows = s.alertRows := by
  rcases w with ⟨we, wu, wf⟩
  cases we <;> cases wu <;> cases wf <;> simp [sendNotification, fetchWebhook]

/-- Notification delivery never touches the `temperature_actions` table. -/
theorem sendNotification_keeps_actionRows (t : Telemetry) (ev : Evaluation)
    (w : ExecWorld) (s : ExecState) :
    (sendNotification t ev w s).actionRows = s.actionRows := by
  rcases w with ⟨we, wu, wf⟩
  cases we <;> cases wu <;> cases wf <;> simp [sendNotification, fetchWebhook]

/-- The rows appended by one action depend only on the event data and the
rows already present, never on the notification environment. -/
theorem applyAction_rows_congr (w w' : ExecWorld) (t : Telemetry) (ev : Evaluation)
    (a : String) (s s' : ExecState)
    (h1 : s.telemetryRows = s'.telemetryRows) (h2 : s.alertRows = s'.alertRows)
    (h3 : s.actionRows = s'.actionRows) :
    (applyAction w t ev s a).telemetryRows = (applyAction w' t ev s' a).telemetryRows
    ∧ (applyAction w t ev s a).alertRows = (applyAction w' t ev s' a).alertRows
    ∧ (applyAction w t ev s a).actionRows = (applyAction w' t ev s' a).actionRows := by
  unfold applyAction
  split_ifs <;>
    simp [storeTelemetry, storeAlert, storeTemperatureAction,
      sendNotification_keeps_telemetryRows, sendNotification_keeps_alertRows,
      sendNotification_keeps_actionRows, h1, h2, h3]

/-- Extension of `applyAction_rows_congr` to a whole action list. -/
theorem foldActions_rows_congr (w w' : ExecWorld) (t : Telemetry) (ev : Evaluation) :
    ∀ (acts : List String) (s s' : ExecState),
      s.telemetryRows = s'.telemetryRows → s.alertRows = s'.alertRows →
      s.actionRows = s'.actionRows →
      (acts.foldl (applyAction w t ev) s).telemetryRows
          = (acts.foldl (applyAction w' t ev) s').telemetryRows
        ∧ (acts.foldl (applyAction w t ev) s).alertRows
          = (acts.foldl (applyAction w' t ev) s').alertRows
        ∧ (acts.foldl (applyAction w t ev) s).actionRows
          = (acts.foldl (applyAction w' t ev) s').actionRows := by
  intro acts
  induction acts with
  | nil => intro s s' h1 h2 h3; exact ⟨h1, h2, h3⟩
  | cons a rest ih =>
      intro s s' h1 h2 h3
      obtain ⟨g1, g2, g3⟩ := applyAction_rows_congr w w' t ev a s s' h1 h2 h3
      exact ih (applyAction w t ev s a) (applyAction w' t ev s' a) g1 g2 g3

/-! ### Claims -/

/-- C1 (counterexample): as stated over every thresholds record, the claim
fails when the stored warning threshold exceeds the critical one: at value
5 with thresholds {warning: 10, critical: 0}, `determineAlertType` returns
CRITICAL although the value is ≤ warning, so the "NORMAL iff v ≤ warning"
clause is false. -/
theorem determineAlertType_claim_cex :
    determineAlertType 5 { warning := 10, critical := 0, target := 0 } = "CRITICAL"
    ∧ ¬ (determineAlertType 5 { warning := 10, critical := 0, target := 0 } = "NORMAL"
          ↔ (5 : ℚ) ≤ 10) := by
  decide

/-- C1 (amended): for every value and every thresholds record whose warning
bound does not exceed its critical bound, `determineAlertType` returns
CRITICAL iff v > critical, WARNING iff warning < v ≤ critical, and NORMAL
iff v ≤ warning; ties go to the lower severity. -/
theorem determineAlertType_spec (v : ℚ) (t : Thresholds) (h : t.warning ≤ t.critical) :
    (determineAlertType v t = "CRITICAL" ↔ t.critical < v)
    ∧ (determineAlertType v t = "WARNING" ↔ t.warning < v ∧ v ≤ t.critical)
    ∧ (determineAlertType v t = "NORMAL" ↔ v ≤ t.warning) := by
  unfold determineAlertType
  split_ifs with h1 h2
  · exact ⟨⟨fun _ => h1, fun _ => rfl⟩,
      ⟨fun hc => absurd hc (by decide), fun hp => absurd h1 (not_lt.mpr hp.2)⟩,
      ⟨fun hc => absurd hc (by decide), fun hle => absurd h1 (not_lt.mpr (hle.trans h))⟩⟩
  · exact ⟨⟨fun hc => absurd hc (by decide), fun hlt => absurd hlt h1⟩,
      ⟨fun _ => ⟨h2, not_lt.mp h1⟩, fun _ => rfl⟩,
      ⟨fun hc => absurd hc (by decide), fun hle => absurd h2 (not_lt.mpr hle)⟩⟩
  · exact ⟨⟨fun hc => absurd hc (by decide), fun hlt => absurd hlt h1⟩,
      ⟨fun hc => absurd hc (by decide), fun hp => absurd hp.1 h2⟩,
      ⟨fun _ => not_lt.mp h2, fun _ => rfl⟩⟩

/-- C1 (witness): the default thresholds satisfy warning ≤ critical, and at
value -1 the classification is CRITICAL exactly because -1 > critical. -/
theorem determineAlertType_spec_witness :
    determineAlertType (-1) defaultThresholds = "CRITICAL" ↔ defaultThresholds.critical < -1 :=
  (determineAlertType_spec (-1) defaultThresholds (by decide)).1

/-- C4: `determineActions` maps CRITICAL to [LOG, ADJUST_TEMPERATURE,
NOTIFY_CRITICAL], WARNING to [LOG, NOTIFY_WARNING], and NORMAL to [LOG],
in exactly those orders. -/
theorem determineActions_fixed_lists :
    determineActions "CRITICAL" = ["LOG", "ADJUST_TEMPERATURE", "NOTIFY_CRITICAL"]
    ∧ determineActions "WARNING" = ["LOG", "NOTIFY_WARNING"]
    ∧ determineActions "NORMAL" = ["LOG"] := by
  decide

/-- C8: `determineActions` is a total function returning a non-empty action
list on every input (in particular on each of the four classification
strings); being a function of the embedding it is pure and returns the
same list on every application. -/
theorem determineActions_total_nonempty (alertType : String) :
    0 < (determineActions alertType).length := by
  unfold determineActions
  split_ifs <;> simp

/-- C10: every input other than CRITICAL and WARNING is mapped by
`determineActions` to exactly [LOG], and no input at all is mapped to the
[TREND_ALERT] list (which only `checkTemperatureTrend` constructs). -/
theorem determineActions_catchall (alertType : String)
    (h1 : alertType ≠ "CRITICAL") (h2 : alertType ≠ "WARNING") :
    determineActions alertType = ["LOG"]
    ∧ ∀ a : String, determineActions a ≠ ["TREND_ALERT"] := by
  constructor
  · unfold determineActions
    rw [if_neg h1, if_neg h2]
  · intro a
    unfold determineActions
    split_ifs <;> decide

/-- C10 (witness): the TREND_ANOMALY classification is mapped to [LOG]. -/
theorem determineActions_catchall_witness :
    determineActions "TREND_ANOMALY" = ["LOG"] :=
  (determineActions_catchall "TREND_ANOMALY" (by decide) (by decide)).1

/-- C5: threshold resolution falls back component-wise — for each of
warning, critical and target independently, `getThresholds` returns the
stored value when the corresponding Redis key is present and the
process-wide default for that component when it is absent. -/
theorem getThresholds_componentwise (redisGet : String → Option ℚ) (shipId : String) :
    ((∀ x, redisGet ("threshold:" ++ shipId ++ ":warning") = some x →
        (getThresholds redisGet shipId).warning = x)
      ∧ (redisGet ("threshold:" ++ shipId ++ ":warning") = none →
        (getThresholds redisGet shipId).warning = defaultThresholds.warning))
    ∧ ((∀ x, redisGet ("threshold:" ++ shipId ++ ":critical") = some x →
        (getThresholds redisGet shipId).critical = x)
      ∧ (redisGet ("threshold:" ++ shipId ++ ":critical") = none →
        (getThresholds redisGet shipId).critical = defaultThresholds.critical))
    ∧ ((∀ x, redisGet ("threshold:" ++ shipId ++ ":target") = some x →
        (getThresholds redisGet shipId).target = x)
      ∧ (redisGet ("threshold:" ++ shipId ++ ":target") = none →
        (getThresholds redisGet shipId).target = defaultThresholds.target)) := by
  refine ⟨⟨fun x hx => ?_, fun hx => ?_⟩, ⟨fun x hx => ?_, fun hx => ?_⟩,
    ⟨fun x hx => ?_, fun hx => ?_⟩⟩ <;> simp [getThresholds, hx]

/-- C5 (witness): with only a critical threshold stored for ship_1, the
resolved thresholds combine the default warning with the stored
critical. -/
theorem getThresholds_componentwise_witness :
    (getThresholds partialStore "ship_1").warning = defaultThresholds.warning
    ∧ (getThresholds partialStore "ship_1").critical = -2 := by
  have h := getThresholds_componentwise partialStore "ship_1"
  exact ⟨h.1.2 rfl, h.2.1.1 (-2) rfl⟩

/-- C3: `checkTemperatureTrend` emits an event exactly when the sample list
has at least `trendMinReadings` rows, at least `trendMinRising` adjacent
pairs rise, and the newest value exceeds the oldest by more than
`trendMinIncrease`; the emitted event is a TREND_ANOMALY carrying the
newest sampled value with actions [TREND_ALERT]. -/
theorem checkTemperatureTrend_spec (shipId : String) (temps : List ℚ) :
    ((checkTemperatureTrend shipId temps).isSome = true ↔
      trendMinReadings ≤ temps.length ∧ trendMinRising ≤ risingSteps temps
        ∧ trendMinIncrease < temps.headD 0 - temps.getLastD 0)
    ∧ ∀ e, checkTemperatureTrend shipId temps = some e →
        e.telemetry.temp = temps.headD 0
        ∧ e.evaluation.actions = ["TREND_ALERT"]
        ∧ e.evaluation.alert_type = "TREND_ANOMALY"
        ∧ e.event_type = "TREND_ANOMALY" := by
  simp only [checkTemperatureTrend]
  split_ifs with h1 h2 h3
  · refine ⟨⟨fun hs => absurd hs (by simp), fun hp => absurd h1 (not_lt.mpr hp.1)⟩, ?_⟩
    intro e he
    exact absurd he (by simp)
  · refine ⟨⟨fun _ => ⟨not_lt.mp h1, h2, h3⟩, fun _ => rfl⟩, ?_⟩
    intro e he
    obtain rfl := Option.some.inj he
    exact ⟨rfl, rfl, rfl, rfl⟩
  · refine ⟨⟨fun hs => absurd hs (by simp), fun hp => absurd hp.2.2 h3⟩, ?_⟩
    intro e he
    exact absurd he (by simp)
  · refine ⟨⟨fun hs => absurd hs (by simp), fun hp => absurd hp.2.1 h2⟩, ?_⟩
    intro e he
    exact absurd he (by simp)

/-- C3 (witness): the sample list [-3, -4, -6, -9] (4 rows, 3 rising steps,
total increase 6) makes the trend check emit an event. -/
theorem checkTemperatureTrend_spec_witness :
    (checkTemperatureTrend "ship_1" [-3, -4, -6, -9]).isSome = true :=
  (checkTemperatureTrend_spec "ship_1" [-3, -4, -6, -9]).1.mpr
    (by refine ⟨by decide, by decide, ?_⟩; norm_num [trendMinIncrease])

/-- C6: in one batch iteration of the shared consumer loop, when per-item
success is a property of the item (as in the source, where a failure is a
parse error or an external-store error of that item), every item in the
batch is processed — the final state is the fold of per-item processing
over the whole batch, failures included — and the receipt handles passed
to the batch delete call are exactly those of the items that completed
without error. -/
theorem consumeBatch_isolated {σ β : Type} (proc : σ → β → σ × Bool) (f : β → Bool)
    (hf : ∀ s b, (proc s b).2 = f b) (init : σ) (msgs : List (QMsg β)) :
    (consumeBatch proc init msgs).1 = msgs.foldl (fun s m => (proc s m.body).1) init
    ∧ (consumeBatch proc init msgs).2
      = (msgs.filter fun m => f m.body).map QMsg.receiptHandle := by
  induction msgs generalizing init with
  | nil => exact ⟨rfl, rfl⟩
  | cons m rest ih =>
      obtain ⟨ih1, ih2⟩ := ih ((proc init m.body).1)
      refine ⟨?_, ?_⟩
      · show (consumeBatch proc ((proc init m.body).1) rest).1 = _
        simpa using ih1
      · show (if (proc init m.body).2 then
            m.receiptHandle :: (consumeBatch proc ((proc init m.body).1) rest).2
          else (consumeBatch proc ((proc init m.body).1) rest).2) = _
        rw [hf, ih2, List.filter_cons]
        cases f m.body <;> simp

/-- C6 (witness): a three-message Executor batch whose middle message fails
to parse still processes the outer two and acknowledges exactly their
receipt handles. -/
theorem consumeBatch_isolated_witness :
    (consumeBatch (executorProc webhookUp) emptyExecState
        [{ body := some criticalScenarioEvent, receiptHandle := 1 },
         { body := none, receiptHandle := 2 },
         { body := some criticalScenarioEvent, receiptHandle := 3 }]).2 = [1, 3] := by
  have h := (consumeBatch_isolated (executorProc webhookUp) Option.isSome
      (fun s b => by cases b <;> rfl) emptyExecState
      [{ body := some criticalScenarioEvent, receiptHandle := 1 },
       { body := none, receiptHandle := 2 },
       { body := some criticalScenarioEvent, receiptHandle := 3 }]).2
  rw [h]
  rfl

/-- C7: notification delivery is best-effort — `sendNotification` is a
total function that never modifies any of the three tables (so the
preceding alert insert stays in effect), the tables produced by
`processEvent` are independent of the notification environment (enabled
flag, URL presence, delivery failure), and whether an event's receipt
handle is acknowledged depends only on whether its body parses, never on
notification failure. -/
theorem sendNotification_best_effort :
    (∀ (t : Telemetry) (ev : Evaluation) (w : ExecWorld) (s : ExecState),
      (sendNotification t ev w s).telemetryRows = s.telemetryRows
      ∧ (sendNotification t ev w s).alertRows = s.alertRows
      ∧ (sendNotification t ev w s).actionRows = s.actionRows)
    ∧ (∀ (w w' : ExecWorld) (e : Event) (s : ExecState),
      (processEvent w e s).telemetryRows = (processEvent w' e s).telemetryRows
      ∧ (processEvent w e s).alertRows = (processEvent w' e s).alertRows
      ∧ (processEvent w e s).actionRows = (processEvent w' e s).actionRows)
    ∧ (∀ (w : ExecWorld) (s : ExecState) (body : Option Event),
      (executorProc w s body).2 = body.isSome) :=
  ⟨fun t ev w s => ⟨sendNotification_keeps_telemetryRows t ev w s,
      sendNotification_keeps_alertRows t ev w s, sendNotification_keeps_actionRows t ev w s⟩,
    fun w w' e s =>
      foldActions_rows_congr w w' e.telemetry e.evaluation e.evaluation.actions s s rfl rfl rfl,
    fun w s body => by cases body <;> rfl⟩

/-- C9: dispatching any event emitted by the trend detector appends exactly
one alert row, with classification TREND_ANOMALY and threshold 0 (the
sentinel "no threshold used"). -/
theorem trendEvent_alert_row (shipId : String) (temps : List ℚ) (e : Event)
    (w : ExecWorld) (s : ExecState)
    (he : checkTemperatureTrend shipId temps = some e) :
    (processEvent w e s).alertRows.map alertKind
      = s.alertRows.map alertKind ++ [("TREND_ANOMALY", (0 : ℚ))] := by
  simp only [checkTemperatureTrend] at he
  split_ifs at he with h1 h2 h3
  obtain rfl := Option.some.inj he
  show ((s.alertRows ++
      [({ ship_id := shipId, temperature := temps.headD 0, threshold := 0,
          alert_type := "TREND_ANOMALY", action_taken := "TREND_ALERT",
          message := "Temperature rising: +" ++ toString (temps.headD 0 - temps.getLastD 0)
            ++ " in 5 min" } : AlertRow)]).map alertKind) = _
  simp [alertKind]

/-- C9 (witness): the trend event emitted from samples [-3, -4, -6, -9]
leads to exactly one TREND_ANOMALY alert row with threshold 0 when
dispatched against an empty database. -/
theorem trendEvent_alert_row_witness :
    (processEvent webhookUp
        ((checkTemperatureTrend "ship_1" [-3, -4, -6, -9]).getD dummyEvent)
        emptyExecState).alertRows.map alertKind = [("TREND_ANOMALY", (0 : ℚ))] := by
  have hs : (checkTemperatureTrend "ship_1" [-3, -4, -6, -9]).isSome = true := by
    simp only [checkTemperatureTrend]
    rw [if_neg (by decide), if_pos (by decide), if_pos (by norm_num [trendMinIncrease])]
    rfl
  have he : checkTemperatureTrend "ship_1" [-3, -4, -6, -9]
      = some ((checkTemperatureTrend "ship_1" [-3, -4, -6, -9]).getD dummyEvent) := by
    obtain ⟨e, h⟩ := Option.isSome_iff_exists.mp hs
    rw [h]
    rfl
  exact (trendEvent_alert_row "ship_1" [-3, -4, -6, -9] _ webhookUp emptyExecState he).trans
    (by simp [emptyExecState])

/-- C2 (counterexample): dispatching the event produced from the Reading
{ship_1, value -1} under thresholds {warning: -10, critical: -5} inserts
TWO alert rows (one for the ADJUST_TEMPERATURE action, one for
NOTIFY_CRITICAL), not exactly one as claimed. -/
theorem dispatch_critical_cex :
    criticalScenarioFinal.alertRows.length = 2
    ∧ ¬ criticalScenarioFinal.alertRows.length = 1 := by
  decide

/-- C2 (amended): the CRITICAL scenario event carries actions
[LOG, ADJUST_TEMPERATURE, NOTIFY_CRITICAL]; dispatching it performs
exactly one telemetry-history insert, exactly two alert inserts both with
classification CRITICAL (action_taken ADJUST_TEMPERATURE and
NOTIFY_CRITICAL respectively), exactly one temperature-action insert with
status PENDING, and exactly one attempted notification. -/
theorem dispatch_critical_amended :
    criticalScenarioEvent.evaluation.alert_type = "CRITICAL"
    ∧ criticalScenarioEvent.evaluation.actions = ["LOG", "ADJUST_TEMPERATURE", "NOTIFY_CRITICAL"]
    ∧ criticalScenarioFinal.telemetryRows.length = 1
    ∧ criticalScenarioFinal.alertRows.map AlertRow.alert_type = ["CRITICAL", "CRITICAL"]
    ∧ criticalScenarioFinal.alertRows.map AlertRow.action_taken
      = ["ADJUST_TEMPERATURE", "NOTIFY_CRITICAL"]
    ∧ criticalScenarioFinal.actionRows.map ActionRow.status = ["PENDING"]
    ∧ criticalScenarioFinal.notifyAttempts = 1 := by
  decide

end TMS
